import Mathlib

/-!
Verification of the natural-language trip-request parser of the VoyAIge
repository (src/multi_tool_agent/userinterfaceagent.py).

The Python module is a pipeline of pure regex-based extractors over one input
string.  This file gives a shallow embedding: every regular expression of the
source is encoded as a value of a small regex AST (RE) and run by a
backtracking matcher (reMatch / reSearch) that reproduces Python re semantics
for the constructs those patterns use: leftmost match, alternation tried left
to right, greedy and lazy repetition over character classes, optional groups,
word boundaries, lookahead, and IGNORECASE.  Each extractor function is then a
direct transcription of the corresponding Python function.

Python specifics modelled explicitly:
- character classes are ASCII (the inputs exercised by the claims are ASCII);
- the wall-clock year (datetime.date.today().year) is an explicit parameter;
- int(float(s)) in the budget normalizer is modelled with exact arithmetic on
  scaled decimals, with the IEEE-754 double overflow of float(s): a decimal
  value at least 2^1024 becomes inf, and int(inf) raises OverflowError, which
  the source catches nowhere (it only catches ValueError).
-/

set_option maxRecDepth 1000000

set_option maxHeartbeats 2000000

namespace VoyAIge

/-! ### Character helpers (ASCII models of Python str/re classes) -/

/-- Python regex class \s (ASCII part): space, tab, newline, carriage return,
form feed, vertical tab. -/
def pyIsSpace (c : Char) : Bool :=
  c = ' ' || c = '\t' || c = '\n' || c = '\r' || c = '\x0c' || c = '\x0b'

/-- Python regex class \w (ASCII part): letters, digits, underscore. -/
def isWordChar (c : Char) : Bool :=
  c.isAlpha || c.isDigit || c = '_'

/-- ASCII letter, the class [A-Za-z]. -/
def isAsciiAlpha (c : Char) : Bool :=
  ('a' ≤ c && c ≤ 'z') || ('A' ≤ c && c ≤ 'Z')

def isWordOpt (c : Option Char) : Bool :=
  match c with
  | some c => isWordChar c
  | none => false

/-- Value of a nonempty ASCII digit string (Python int() on the digit-only
capture groups of the source patterns). -/
def digitsToNat (s : List Char) : Nat :=
  s.foldl (fun acc c => acc * 10 + (c.toNat - 48)) 0

def digitsToInt (s : List Char) : Int :=
  (digitsToNat s : Int)

/-- Python str.strip() (ASCII whitespace model). -/
def stripChars (s : List Char) : List Char :=
  ((s.dropWhile pyIsSpace).reverse.dropWhile pyIsSpace).reverse

def pyStrip (s : String) : String :=
  String.mk (stripChars s.data)

/-- Collapse every maximal whitespace run to a single space; with the strip
above this is the source helper _clean (re.sub of \s+ by one space). -/
def collapseWs : Bool → List Char → List Char
  | _, [] => []
  | prevWs, c :: cs =>
    if pyIsSpace c then
      if prevWs then collapseWs true cs else ' ' :: collapseWs true cs
    else c :: collapseWs false cs

def pyClean (s : String) : String :=
  String.mk (collapseWs false (stripChars s.data))

/-- Python str.title() (ASCII model): the first letter of every alphabetic run
is uppercased, the rest lowercased. -/
def titleGo : Bool → List Char → List Char
  | _, [] => []
  | prevCased, c :: cs =>
    if c.isAlpha then
      (if prevCased then c.toLower else c.toUpper) :: titleGo true cs
    else c :: titleGo false cs

def pyTitle (s : String) : String :=
  String.mk (titleGo false s.data)

/-- Python str.lower() (ASCII model). -/
def lowerStr (s : String) : String :=
  String.mk (s.data.map Char.toLower)

/-! ### A small regex AST and a backtracking matcher

The AST covers exactly the constructs appearing in the source patterns.
reMatch returns the list of all ways the expression can match a prefix of the
input, in Python backtracking priority order (greedy repetitions longest
first, lazy shortest first, alternatives left to right), so the head of the
list at the leftmost matching position is the match Python re would return. -/

inductive RE where
  /-- Matches the empty string. -/
  | eps : RE
  /-- A character class, one character satisfying the predicate. -/
  | cls : (Char → Bool) → RE
  /-- A literal; when the flag is true it is matched case-insensitively
  (re.IGNORECASE). -/
  | lit : Bool → List Char → RE
  /-- Concatenation. -/
  | seq : RE → RE → RE
  /-- Alternation, left branch preferred. -/
  | alt : RE → RE → RE
  /-- Greedy option (x?). -/
  | opt : RE → RE
  /-- Repetition of a character class with a lower bound, an optional upper
  bound, and a laziness flag: class{lo,hi}, class*, class+, class+? . -/
  | repCls : (Char → Bool) → Nat → Option Nat → Bool → RE
  /-- Numbered capturing group. -/
  | grp : Nat → RE → RE
  /-- Word boundary \b. -/
  | wb : RE
  /-- Dollar anchor: end of input, or just before a final newline. -/
  | eol : RE
  /-- Lookahead (?=...). -/
  | look : RE → RE

/-- Captured groups: group number paired with the captured characters. -/
abbrev GroupMap := List (Nat × List Char)

def charMatches (ci : Bool) (pat c : Char) : Bool :=
  if ci then pat.toLower = c.toLower else pat = c

/-- Match a literal, returning the rest of the input and the last consumed
character. -/
def litStep (ci : Bool) : List Char → List Char → Option Char → Option (List Char × Option Char)
  | [], s, prev => some (s, prev)
  | _ :: _, [], _ => none
  | p :: ps, c :: cs, _ =>
    if charMatches ci p c then litStep ci ps cs (some c) else none

def hiDec : Option Nat → Option Nat
  | none => none
  | some n => some (n - 1)

/-- States reachable by consuming 0, 1, 2, ... characters of the class, in
increasing order of count, capped by the optional upper bound. -/
def runCls (p : Char → Bool) (hi : Option Nat) : List Char → Option Char → List (List Char × Option Char)
  | [], prev => [([], prev)]
  | c :: cs, prev =>
    if hi = some 0 then [(c :: cs, prev)]
    else if p c then (c :: cs, prev) :: runCls p (hiDec hi) cs (some c)
    else [(c :: cs, prev)]

/-- All matches of the expression against a prefix of the input, in Python
backtracking priority order.  Each result is the remaining input, the last
consumed character (for \b), and the captured groups. -/
def reMatch : RE → List Char → Option Char → GroupMap → List (List Char × Option Char × GroupMap)
  | RE.eps, s, prev, g => [(s, prev, g)]
  | RE.cls p, s, _, g =>
    match s with
    | c :: cs => if p c then [(cs, some c, g)] else []
    | [] => []
  | RE.lit ci cs, s, prev, g =>
    match litStep ci cs s prev with
    | some (s2, p2) => [(s2, p2, g)]
    | none => []
  | RE.seq a b, s, prev, g =>
    (reMatch a s prev g).flatMap (fun r => reMatch b r.1 r.2.1 r.2.2)
  | RE.alt a b, s, prev, g => reMatch a s prev g ++ reMatch b s prev g
  | RE.opt a, s, prev, g => reMatch a s prev g ++ [(s, prev, g)]
  | RE.repCls p lo hi lz, s, prev, g =>
    let states := (runCls p hi s prev).drop lo
    let ordered := if lz then states else states.reverse
    ordered.map (fun r => (r.1, r.2, g))
  | RE.grp i a, s, prev, g =>
    (reMatch a s prev g).map
      (fun r => (r.1, r.2.1, (i, s.take (s.length - r.1.length)) :: r.2.2))
  | RE.wb, s, prev, g =>
    if isWordOpt prev != isWordOpt s.head? then [(s, prev, g)] else []
  | RE.eol, s, prev, g =>
    if s = [] || s = ['\n'] then [(s, prev, g)] else []
  | RE.look a, s, prev, g =>
    if (reMatch a s prev g).isEmpty then [] else [(s, prev, g)]

/-- re.search: try each start position left to right; at the first position
with a match, return its groups, the input remaining after the match, and the
last consumed character. -/
def reSearch (r : RE) : List Char → Option Char → Option (GroupMap × List Char × Option Char)
  | s, prev =>
    match reMatch r s prev [] with
    | res :: _ => some (res.2.2, res.1, res.2.1)
    | [] =>
      match s with
      | [] => none
      | c :: cs => reSearch r cs (some c)

/-- re.finditer (collecting the group maps): repeated search, resuming after
the end of each match.  All matches of the source patterns consume at least
one character, so the fuel (called with input length + 1) never runs out. -/
def reFindAll (r : RE) : Nat → List Char → Option Char → List GroupMap
  | 0, _, _ => []
  | Nat.succ f, s, prev =>
    match reSearch r s prev with
    | some (g, rest, p2) => g :: reFindAll r f rest p2
    | none => []

/-- Captured text of a group, empty when absent (used only for groups that are
always present in a successful match). -/
def gstr (g : GroupMap) (i : Nat) : String :=
  match g.lookup i with
  | some cs => String.mk cs
  | none => ""

/-- Captured text of an optional group, as Python group(i) being None or str. -/
def gopt (g : GroupMap) (i : Nat) : Option String :=
  (g.lookup i).map String.mk

/-! ### Pattern building helpers -/

def cats (l : List RE) : RE := l.foldr RE.seq RE.eps

def alts : List RE → RE
  | [] => RE.cls (fun _ => false)
  | [a] => a
  | a :: rest => RE.alt a (alts rest)

/-- Case-insensitive literal (parts of IGNORECASE patterns). -/
def litCI (s : String) : RE := RE.lit true s.data

/-- Case-sensitive literal (patterns compiled without flags). -/
def litX (s : String) : RE := RE.lit false s.data

def sp0 : RE := RE.repCls pyIsSpace 0 none false

def sp1 : RE := RE.repCls pyIsSpace 1 none false

def digitsRE (lo : Nat) (hi : Option Nat) : RE := RE.repCls Char.isDigit lo hi false

def alphaRE (lo hi : Nat) : RE := RE.repCls isAsciiAlpha lo (some hi) false

/-! ### Lexicon tables (module-level dictionaries of the source, in insertion
order, which Python dicts preserve) -/

def MONTHS : List (String × Nat) :=
  [("january", 1), ("february", 2), ("march", 3), ("april", 4), ("may", 5),
   ("june", 6), ("july", 7), ("august", 8), ("september", 9), ("october", 10),
   ("november", 11), ("december", 12)]

/-- MONTH_ABBR = first three letters of each month name. -/
def MONTH_ABBR : List (String × Nat) :=
  MONTHS.map (fun p => (String.mk (p.1.data.take 3), p.2))

def WORD_NUMS : List (String × Nat) :=
  [("one", 1), ("two", 2), ("three", 3), ("four", 4), ("five", 5), ("six", 6),
   ("seven", 7), ("eight", 8), ("nine", 9), ("ten", 10), ("eleven", 11),
   ("twelve", 12), ("thirteen", 13), ("fourteen", 14), ("fifteen", 15),
   ("sixteen", 16), ("seventeen", 17), ("eighteen", 18), ("nineteen", 19),
   ("twenty", 20)]

def INTEREST_KEYWORDS : List (String × List String) :=
  [("art", ["art", "museum", "galleries", "gallery", "exhibition"]),
   ("food", ["food", "cuisine", "restaurant", "dining", "culinary", "street food"]),
   ("history", ["history", "historic", "heritage", "castle", "monument", "ruins"]),
   ("nature", ["nature", "hike", "hiking", "park", "outdoors", "mountain", "forest"]),
   ("adventure", ["adventure", "kayak", "ski", "surf", "dive", "zipline", "trek", "climb"]),
   ("nightlife", ["nightlife", "club", "bars", "bar", "pub", "party"]),
   ("shopping", ["shopping", "shop", "boutique", "mall", "market", "souvenir"]),
   ("family", ["family", "kids", "children", "zoo", "theme park"]),
   ("romance", ["romance", "honeymoon", "couple", "romantic"])]

def CURRENCY_SIGNS : List (String × String) :=
  [("$", "USD"), ("€", "EUR"), ("£", "GBP"), ("₹", "INR"), ("¥", "JPY"),
   ("₩", "KRW"), ("A$", "AUD"), ("C$", "CAD")]

def CURRENCY_WORDS : List (String × String) :=
  [("usd", "USD"), ("dollar", "USD"), ("dollars", "USD"),
   ("eur", "EUR"), ("euro", "EUR"), ("euros", "EUR"),
   ("gbp", "GBP"), ("pound", "GBP"), ("pounds", "GBP"),
   ("inr", "INR"), ("rupee", "INR"), ("rupees", "INR"),
   ("jpy", "JPY"), ("yen", "JPY"),
   ("cad", "CAD"), ("aud", "AUD")]

/-! ### Date window resolver (_find_month_or_window) -/

/-- Helper _mon_num: full month name, else the first three letters as an
abbreviation (Python MONTHS.get(tok) or MONTH_ABBR.get(tok[:3])). -/
def monNum (tok : String) : Option Nat :=
  match MONTHS.lookup (lowerStr tok) with
  | some n => some n
  | none => MONTH_ABBR.lookup (String.mk ((lowerStr tok).data.take 3))

/-- Helper _strip_ord: drop a trailing ordinal suffix, then int().  The day
groups of the source patterns capture digits only, so the suffix branch never
fires there, but it is kept faithful to the source. -/
def stripOrd (d : String) : Nat :=
  let l := (lowerStr d).data
  let core :=
    if l.reverse.take 2 = ['t', 's'] || l.reverse.take 2 = ['d', 'n'] ||
       l.reverse.take 2 = ['d', 'r'] || l.reverse.take 2 = ['h', 't'] then
      d.data.dropLast.dropLast
    else d.data
  digitsToNat core

/-- Gregorian leap year, as datetime uses. -/
def isLeap (y : Nat) : Bool :=
  y % 4 = 0 && (y % 100 ≠ 0 || y % 400 = 0)

def daysInMonth (y m : Nat) : Nat :=
  if m = 2 then (if isLeap y then 29 else 28)
  else if m = 4 || m = 6 || m = 9 || m = 11 then 30
  else 31

/-- datetime.date(y, m, d) succeeds exactly on these arguments (MINYEAR = 1,
MAXYEAR = 9999); outside, ValueError is raised, which the source catches and
turns into fallthrough. -/
def isValidDate (y m d : Nat) : Bool :=
  decide (1 ≤ y ∧ y ≤ 9999 ∧ 1 ≤ m ∧ m ≤ 12 ∧ 1 ≤ d ∧ d ≤ daysInMonth y m)

def pad (w n : Nat) : String :=
  let s := toString n
  if s.length < w then String.mk (List.replicate (w - s.length) '0') ++ s else s

/-- date.isoformat(): YYYY-MM-DD, zero padded. -/
def isoDate (y m d : Nat) : String :=
  pad 4 y ++ "-" ++ pad 2 m ++ "-" ++ pad 2 d

/-- Pattern 0 of the resolver, compiled without flags:
(\d{4}-\d{2}-\d{2})\s*(?:to|-|–|—)\s*(\d{4}-\d{2}-\d{2}) . -/
def isoSingle : RE :=
  cats [digitsRE 4 (some 4), litX "-", digitsRE 2 (some 2), litX "-", digitsRE 2 (some 2)]

def isoRangePat : RE :=
  cats [RE.grp 1 isoSingle, sp0, alts [litX "to", litX "-", litX "–", litX "—"], sp0,
        RE.grp 2 isoSingle]

def ordSuf : RE := RE.opt (alts [litCI "st", litCI "nd", litCI "rd", litCI "th"])

def seps : RE :=
  alts [litCI "to", litCI "-", litCI "–", litCI "—", litCI "through", litCI "thru",
        litCI "until", litCI "till", litCI "up to", litCI "up-to"]

/-- Pattern 1 (IGNORECASE):
\b([A-Za-z]{3,9})\s+(\d{1,2})(?:st|nd|rd|th)?\s*(?:,?\s*(\d{4}))?\s*
(?:to|-|–|—|through|thru|until|till|up to|up\-to)\s*
(?:(?:([A-Za-z]{3,9})\s+)?(\d{1,2})(?:st|nd|rd|th)?)(?:\s*,?\s*(\d{4}))? . -/
def pat1 : RE :=
  cats [RE.wb, RE.grp 1 (alphaRE 3 9), sp1, RE.grp 2 (digitsRE 1 (some 2)), ordSuf,
        sp0, RE.opt (cats [RE.opt (litCI ","), sp0, RE.grp 3 (digitsRE 4 (some 4))]), sp0,
        seps, sp0,
        RE.opt (cats [RE.grp 4 (alphaRE 3 9), sp1]),
        RE.grp 5 (digitsRE 1 (some 2)), ordSuf,
        RE.opt (cats [sp0, RE.opt (litCI ","), sp0, RE.grp 6 (digitsRE 4 (some 4))])]

/-- Pattern 2 (IGNORECASE):
\b(\d{1,2})(?:st|nd|rd|th)?\s*(?:to|-|–|—|through|thru|until|till|up to|up\-to)\s*
(\d{1,2})(?:st|nd|rd|th)?\s*([A-Za-z]{3,9})(?:\s*,?\s*(\d{4}))? . -/
def pat2 : RE :=
  cats [RE.wb, RE.grp 1 (digitsRE 1 (some 2)), ordSuf, sp0, seps, sp0,
        RE.grp 2 (digitsRE 1 (some 2)), ordSuf, sp0, RE.grp 3 (alphaRE 3 9),
        RE.opt (cats [sp0, RE.opt (litCI ","), sp0, RE.grp 4 (digitsRE 4 (some 4))])]

/-- Pattern 3 (IGNORECASE):
\bbetween\s+([A-Za-z]{3,9})\s+(\d{1,2})(?:st|nd|rd|th)?\s+and\s+
(\d{1,2})(?:st|nd|rd|th)?(?:\s*,?\s*(\d{4}))? . -/
def pat3 : RE :=
  cats [RE.wb, litCI "between", sp1, RE.grp 1 (alphaRE 3 9), sp1,
        RE.grp 2 (digitsRE 1 (some 2)), ordSuf, sp1, litCI "and", sp1,
        RE.grp 3 (digitsRE 1 (some 2)), ordSuf,
        RE.opt (cats [sp0, RE.opt (litCI ","), sp0, RE.grp 4 (digitsRE 4 (some 4))])]

/-- Pattern 4, compiled without flags: \b(?:in\s+)?([A-Za-z]{3,9})\b . -/
def bareMonthPat : RE :=
  cats [RE.wb, RE.opt (cats [litX "in", sp1]), RE.grp 1 (alphaRE 3 9), RE.wb]

/-- ISO range branch: both groups are passed through without validation. -/
def isoWindow (t : String) : Option (String × String) :=
  match reSearch isoRangePat t.data none with
  | some (g, _, _) => some (gstr g 1, gstr g 2)
  | none => none

/-- Pattern 1 branch.  The first regex match is inspected; a non-month word,
or an invalid constructed date (ValueError), makes the branch fail. -/
def pat1Window (yearNow : Nat) (t : String) : Option (String × String) :=
  match reSearch pat1 t.data none with
  | none => none
  | some (g, _, _) =>
    let sm? := monNum (gstr g 1)
    let em? := match gopt g 4 with
      | some emon => monNum emon
      | none => sm?
    match sm?, em? with
    | some sm, some em =>
      let sdi := stripOrd (gstr g 2)
      let edi := stripOrd (gstr g 5)
      let syi := match gopt g 3 with
        | some sy => digitsToNat sy.data
        | none => yearNow
      let eyi := match gopt g 6 with
        | some ey => digitsToNat ey.data
        | none => syi
      if isValidDate syi sm sdi && isValidDate eyi em edi then
        some (isoDate syi sm sdi, isoDate eyi em edi)
      else none
    | _, _ => none

/-- Pattern 2 branch. -/
def pat2Window (yearNow : Nat) (t : String) : Option (String × String) :=
  match reSearch pat2 t.data none with
  | none => none
  | some (g, _, _) =>
    match monNum (gstr g 3) with
    | some mm =>
      let sdi := stripOrd (gstr g 1)
      let edi := stripOrd (gstr g 2)
      let y := match gopt g 4 with
        | some yr => digitsToNat yr.data
        | none => yearNow
      if isValidDate y mm sdi && isValidDate y mm edi then
        some (isoDate y mm sdi, isoDate y mm edi)
      else none
    | none => none

/-- Pattern 3 branch. -/
def pat3Window (yearNow : Nat) (t : String) : Option (String × String) :=
  match reSearch pat3 t.data none with
  | none => none
  | some (g, _, _) =>
    match monNum (gstr g 1) with
    | some mm =>
      let sdi := stripOrd (gstr g 2)
      let edi := stripOrd (gstr g 3)
      let y := match gopt g 4 with
        | some yr => digitsToNat yr.data
        | none => yearNow
      if isValidDate y mm sdi && isValidDate y mm edi then
        some (isoDate y mm sdi, isoDate y mm edi)
      else none
    | none => none

/-- Pattern 4 branch: the word captured at the first position where the bare
pattern matches, resolved through MONTHS then MONTH_ABBR on its first three
letters. -/
def bareMonth (t : String) : Option Nat :=
  match reSearch bareMonthPat t.data none with
  | some (g, _, _) =>
    match MONTHS.lookup (lowerStr (gstr g 1)) with
    | some n => some n
    | none => MONTH_ABBR.lookup (String.mk ((lowerStr (gstr g 1)).data.take 3))
  | none => none

/-- Result dictionary of _find_month_or_window: keys among start_date,
end_date, month, each absent (none) when not set. -/
structure DateWindow where
  start_date : Option String
  end_date : Option String
  month : Option Nat
deriving DecidableEq, Repr

/-- The resolver _find_month_or_window, with the wall-clock year
datetime.date.today().year as an explicit parameter. -/
def findMonthOrWindow (yearNow : Nat) (t : String) : DateWindow :=
  match isoWindow t with
  | some (s, e) => { start_date := some s, end_date := some e, month := none }
  | none =>
    match pat1Window yearNow t with
    | some (s, e) => { start_date := some s, end_date := some e, month := none }
    | none =>
      match pat2Window yearNow t with
      | some (s, e) => { start_date := some s, end_date := some e, month := none }
      | none =>
        match pat3Window yearNow t with
        | some (s, e) => { start_date := some s, end_date := some e, month := none }
        | none =>
          match bareMonth t with
          | some m => { start_date := none, end_date := none, month := some m }
          | none => { start_date := none, end_date := none, month := none }

/-! ### Duration extractor (_find_duration_days) -/

def durUnit : RE := alts [litCI "day", litCI "days", litCI "night", litCI "nights"]

/-- Digit form (IGNORECASE): \b(\d{1,3})\s*(?:-\s*)?(?:day|days|night|nights)\b . -/
def durDigitPat : RE :=
  cats [RE.wb, RE.grp 1 (digitsRE 1 (some 3)), sp0, RE.opt (cats [litCI "-", sp0]),
        durUnit, RE.wb]

/-- Word form (IGNORECASE), one pattern per lexicon word:
\b{w}\s*(?:day|days|night|nights)\b . -/
def durWordPat (w : String) : RE :=
  cats [RE.wb, litCI w, sp0, durUnit, RE.wb]

def durWordLoop : List (String × Nat) → String → Option Nat
  | [], _ => none
  | (w, n) :: rest, t =>
    if (reSearch (durWordPat w) t.data none).isSome then some n
    else durWordLoop rest t

def findDurationDays (t : String) : Option Nat :=
  match reSearch durDigitPat t.data none with
  | some (g, _, _) => some (digitsToNat (gstr g 1).data)
  | none => durWordLoop WORD_NUMS t

/-! ### Traveler count resolver (_find_travelers) -/

/-- Result dictionary {"adults": None | int, "children": int}. -/
structure Travelers where
  adults : Option Int
  children : Int
deriving DecidableEq, Repr

/-- Rule 1 (IGNORECASE): \bfamily\s+of\s+(\d+)\b . -/
def familyPat : RE :=
  cats [RE.wb, litCI "family", sp1, litCI "of", sp1, RE.grp 1 (digitsRE 1 none), RE.wb]

/-- Rule 2 (IGNORECASE): \b(\d+)\s+(?:adults?|people|persons?)\b . -/
def adultsPat : RE :=
  cats [RE.wb, RE.grp 1 (digitsRE 1 none), sp1,
        alts [cats [litCI "adult", RE.opt (litCI "s")], litCI "people",
              cats [litCI "person", RE.opt (litCI "s")]], RE.wb]

/-- Rule 3 (IGNORECASE), per lexicon word: \b{w}\s+(?:people|persons|adults?)\b . -/
def wordPeoplePat (w : String) : RE :=
  cats [RE.wb, litCI w, sp1,
        alts [litCI "people", litCI "persons", cats [litCI "adult", RE.opt (litCI "s")]],
        RE.wb]

def peopleWordLoop : List (String × Nat) → String → Option Nat
  | [], _ => none
  | (w, n) :: rest, t =>
    if (reSearch (wordPeoplePat w) t.data none).isSome then some n
    else peopleWordLoop rest t

/-- Rule 4 (IGNORECASE): \bfor\s+(one|two|three|four|five|six|\d+)\b . -/
def forPat : RE :=
  cats [RE.wb, litCI "for", sp1,
        RE.grp 1 (alts [litCI "one", litCI "two", litCI "three", litCI "four",
                        litCI "five", litCI "six", digitsRE 1 none]), RE.wb]

/-- Rule 5 (IGNORECASE): \b(couple|honeymoon)\b . -/
def couplePat : RE :=
  cats [RE.wb, RE.grp 1 (alts [litCI "couple", litCI "honeymoon"]), RE.wb]

/-- WORD_NUMS.get(word, int(word) if word.isdigit() else 2) of rule 4. -/
def forTokenValue (w : String) : Int :=
  match WORD_NUMS.lookup w with
  | some n => (n : Int)
  | none => if w.data ≠ [] ∧ w.data.all Char.isDigit then digitsToInt w.data else 2

def findTravelers (t : String) : Travelers :=
  match reSearch familyPat t.data none with
  | some (g, _, _) =>
    let total : Int := digitsToInt (gstr g 1).data
    let adults : Int := if 3 ≤ total then max 2 (total - 2) else total
    { adults := some adults, children := max 0 (total - adults) }
  | none =>
    match reSearch adultsPat t.data none with
    | some (g, _, _) => { adults := some (digitsToInt (gstr g 1).data), children := 0 }
    | none =>
      match peopleWordLoop WORD_NUMS t with
      | some n => { adults := some (n : Int), children := 0 }
      | none =>
        match reSearch forPat t.data none with
        | some (g, _, _) =>
          { adults := some (forTokenValue (lowerStr (gstr g 1))), children := 0 }
        | none =>
          if (reSearch couplePat t.data none).isSome then
            { adults := some 2, children := 0 }
          else { adults := none, children := 0 }

/-! ### Budget extractor (_normalize_budget_number, _find_budget)

Python float() on the captured numeric token is modelled exactly: after the
source removes commas and spaces, the token can hold only digits, dots, other
whitespace and a trailing k (already stripped).  float() strips whitespace at
both ends and accepts digit strings with at most one dot and at least one
digit; everything else raises ValueError, which the source catches and maps
to 0.  A parsed value is the exact scaled decimal num / 10^flen.  int(v)
truncates; for values at least 2^1024 the C double conversion yields inf and
int(inf) raises OverflowError, which the source does NOT catch.  Values
between the largest finite double and 2^1024, and rounding of doubles above
2^53, are modelled exactly rather than with IEEE rounding; no claim exercises
that razor-thin band. -/

/-- The only exception that escapes the module. -/
inductive PyErr where
  | overflowError : PyErr
deriving DecidableEq, Repr

deriving instance DecidableEq for Except

/-- Python float(s) for the cleaned tokens: some (num, flen) represents the
exact value num / 10^flen; none is ValueError. -/
def pyFloatVal (s : List Char) : Option (Nat × Nat) :=
  let t := stripChars s
  if t.isEmpty then none
  else if !(t.all fun c => c.isDigit || c = '.') then none
  else if 2 ≤ (t.filter fun c => c = '.').length then none
  else if !(t.any Char.isDigit) then none
  else
    let ip := t.takeWhile fun c => c ≠ '.'
    let fp := (t.dropWhile fun c => c ≠ '.').drop 1
    some (digitsToNat ip * 10 ^ fp.length + digitsToNat fp, fp.length)

/-- _normalize_budget_number: lower, drop commas and spaces, handle a trailing
k as a times-1000 multiplier; int(float(...)) with the overflow behaviour
described above; ValueError becomes 0. -/
def normalizeBudgetNumber (numStr : String) : Except PyErr Int :=
  let s := (numStr.data.map Char.toLower).filter fun c => !(c = ',' || c = ' ')
  if s.getLast? = some 'k' then
    match pyFloatVal s.dropLast with
    | none => Except.ok 0
    | some (num, flen) =>
      if 2 ^ 1024 * 10 ^ flen ≤ num * 1000 then Except.error PyErr.overflowError
      else Except.ok ((num * 1000 / 10 ^ flen : Nat) : Int)
  else
    match pyFloatVal s with
    | none => Except.ok 0
    | some (num, flen) =>
      if 2 ^ 1024 * 10 ^ flen ≤ num then Except.error PyErr.overflowError
      else Except.ok ((num / 10 ^ flen : Nat) : Int)

/-- Result dictionary {"amount": ..., "currency": ..., "tag": ...}. -/
structure Budget where
  amount : Option Int
  currency : Option String
  tag : Option String
deriving DecidableEq, Repr

/-- Numeric class [\d,.\s] of the budget patterns. -/
def numCls (c : Char) : Bool :=
  c.isDigit || c = ',' || c = '.' || pyIsSpace c

/-- Sign rule pattern (IGNORECASE): (?:escaped sign)\s*([\d,.\s]*k?) . -/
def signPat (sign : String) : RE :=
  cats [litCI sign, sp0,
        RE.grp 1 (cats [RE.repCls numCls 0 none false, RE.opt (litCI "k")])]

/-- Currency word rule (IGNORECASE):
\b(\d[\d,.\s]*k?)\s*(usd|eur|gbp|inr|jpy|cad|aud|dollars?|euros?|pounds?|rupees?|yen)\b . -/
def wordMoneyPat : RE :=
  cats [RE.wb,
        RE.grp 1 (cats [RE.cls Char.isDigit, RE.repCls numCls 0 none false,
                        RE.opt (litCI "k")]), sp0,
        RE.grp 2 (alts [litCI "usd", litCI "eur", litCI "gbp", litCI "inr",
                        litCI "jpy", litCI "cad", litCI "aud",
                        cats [litCI "dollar", RE.opt (litCI "s")],
                        cats [litCI "euro", RE.opt (litCI "s")],
                        cats [litCI "pound", RE.opt (litCI "s")],
                        cats [litCI "rupee", RE.opt (litCI "s")],
                        litCI "yen"]), RE.wb]

/-- Budget keyword rule (IGNORECASE): \bbudget(?:\s+of|\s*[:=])?\s*(\d[\d,.\s]*k?)\b . -/
def budgetNumPat : RE :=
  cats [RE.wb, litCI "budget",
        RE.opt (alts [cats [sp1, litCI "of"],
                      cats [sp0, RE.cls fun c => c = ':' || c = '=']]), sp0,
        RE.grp 1 (cats [RE.cls Char.isDigit, RE.repCls numCls 0 none false,
                        RE.opt (litCI "k")]), RE.wb]

/-- \bbudget[- ]?friendly|cheap|affordable|low[ -]?cost\b (alternation binds
loosest, so \b guards only the first and last alternatives, as in the source). -/
def bandBudgetPat : RE :=
  alts [cats [RE.wb, litCI "budget", RE.opt (RE.cls fun c => c = '-' || c = ' '),
              litCI "friendly"],
        litCI "cheap", litCI "affordable",
        cats [litCI "low", RE.opt (RE.cls fun c => c = ' ' || c = '-'),
              litCI "cost", RE.wb]]

/-- \bluxury|luxurious|high[- ]?end|premium|5[- ]?star\b . -/
def bandLuxuryPat : RE :=
  alts [cats [RE.wb, litCI "luxury"], litCI "luxurious",
        cats [litCI "high", RE.opt (RE.cls fun c => c = '-' || c = ' '), litCI "end"],
        litCI "premium",
        cats [litCI "5", RE.opt (RE.cls fun c => c = '-' || c = ' '), litCI "star", RE.wb]]

/-- \bmid[- ]?range|moderate|standard\b . -/
def bandMidPat : RE :=
  alts [cats [RE.wb, litCI "mid", RE.opt (RE.cls fun c => c = '-' || c = ' '),
              litCI "range"],
        litCI "moderate", cats [litCI "standard", RE.wb]]

/-- Sign loop of _find_budget: the first currency sign whose pattern matches
with a nonempty stripped group and a nonzero normalized amount wins; a zero
amount moves on to the next sign; the exception of normalization escapes. -/
def signLoop : List (String × String) → String → Except PyErr (Option Budget)
  | [], _ => Except.ok none
  | (sign, code) :: rest, t =>
    match reSearch (signPat sign) t.data none with
    | some (g, _, _) =>
      if pyStrip (gstr g 1) ≠ "" then
        match normalizeBudgetNumber (gstr g 1) with
        | Except.error e => Except.error e
        | Except.ok amt =>
          if amt ≠ 0 then
            Except.ok (some { amount := some amt, currency := some code, tag := none })
          else signLoop rest t
      else signLoop rest t
    | none => signLoop rest t

/-- Keyword band rules, the tail of _find_budget. -/
def bandBudget (t : String) : Budget :=
  if (reSearch bandBudgetPat t.data none).isSome then
    { amount := none, currency := none, tag := some "budget-friendly" }
  else if (reSearch bandLuxuryPat t.data none).isSome then
    { amount := none, currency := none, tag := some "luxury" }
  else if (reSearch bandMidPat t.data none).isSome then
    { amount := none, currency := none, tag := some "mid-range" }
  else { amount := none, currency := none, tag := none }

/-- _find_budget.  Note that the currency word rule returns the normalized
amount without the nonzero guard that the sign rule and the budget keyword
rule apply. -/
def findBudget (t : String) : Except PyErr Budget :=
  match signLoop CURRENCY_SIGNS t with
  | Except.error e => Except.error e
  | Except.ok (some b) => Except.ok b
  | Except.ok none =>
    match reSearch wordMoneyPat t.data none with
    | some (g, _, _) =>
      match normalizeBudgetNumber (gstr g 1) with
      | Except.error e => Except.error e
      | Except.ok amt =>
        Except.ok { amount := some amt,
                    currency := some ((CURRENCY_WORDS.lookup (lowerStr (gstr g 2))).getD "USD"),
                    tag := none }
    | none =>
      match reSearch budgetNumPat t.data none with
      | some (g, _, _) =>
        match normalizeBudgetNumber (gstr g 1) with
        | Except.error e => Except.error e
        | Except.ok amt =>
          if amt ≠ 0 then
            Except.ok { amount := some amt, currency := some "USD", tag := none }
          else Except.ok (bandBudget t)
      | none => Except.ok (bandBudget t)

/-! ### Interest tagger (_find_interests) -/

/-- Python string comparison is lexicographic on code points; Lean's String
order does not reduce in the kernel, so the same order is defined here
explicitly on the character lists. -/
def charsLe : List Char → List Char → Bool
  | [], _ => true
  | _ :: _, [] => false
  | a :: as, b :: bs =>
    if a < b then true else if b < a then false else charsLe as bs

def strLe (a b : String) : Bool := charsLe a.data b.data

/-- Whole-word trigger match \b{re.escape(w)}\b (IGNORECASE); the trigger
words contain only letters and spaces, so re.escape is the identity on the
characters that matter. -/
def wholeWordPat (w : String) : RE := cats [RE.wb, litCI w, RE.wb]

/-- A category registers when any of its trigger words matches (the inner
loop of _find_interests breaks at the first hit, which any reproduces). -/
def interestHit (t : String) (p : String × List String) : Bool :=
  p.2.any fun w => (reSearch (wholeWordPat w) t.data none).isSome

/-- _find_interests: the set of category tags with at least one trigger hit,
returned sorted (Python sorted() over the hit set).  Iterating the fixed table
and filtering gives exactly the hit set, with no duplicates possible. -/
def findInterests (t : String) : List String :=
  List.insertionSort (fun a b => strLe a b = true)
    ((INTEREST_KEYWORDS.filter (interestHit t)).map Prod.fst)

/-! ### Constraint extractor (_find_constraints) -/

/-- Per keyword (IGNORECASE): \b{kw}\b[^.,;]* with the whole match collected
(group 0). -/
def constraintPat (kw : String) : RE :=
  RE.grp 0 (cats [RE.wb, litCI kw, RE.wb,
                  RE.repCls (fun c => !(c = '.' || c = ',' || c = ';')) 0 none false])

def constraintKeywords : List String :=
  ["must", "need", "avoid", "no ", "prefer", "nonstop", "non-stop"]

/-- Case-insensitive de-duplication keeping first occurrences, as the final
loop of _find_constraints. -/
def dedupCI (seen : List String) : List String → List String
  | [] => []
  | c :: cs =>
    if seen.contains (lowerStr c) then dedupCI seen cs
    else c :: dedupCI (lowerStr c :: seen) cs

def findConstraints (t : String) : List String :=
  let all := constraintKeywords.flatMap fun kw =>
    (reFindAll (constraintPat kw) (t.data.length + 1) t.data none).map fun g =>
      pyClean (gstr g 0)
  dedupCI [] all

/-! ### Destination and origin extractor (_find_destination,
_find_departure_city) -/

/-- Class [\w\-\s] of the capture in both place patterns. -/
def placeCls (c : Char) : Bool := isWordChar c || c = '-' || pyIsSpace c

/-- _find_destination (IGNORECASE):
(?:trip\s+to|travel\s+to|fly\s+to|to|visit)\s+([A-Z][\w\-\s]+?)
(?=(?:\s+for|\s+with|\s+in|\s+on|\s+by|,|\.|$)) — with IGNORECASE, [A-Z] is
any ASCII letter, and $ matches at the end or before a final newline. -/
def destPat : RE :=
  cats [alts [cats [litCI "trip", sp1, litCI "to"],
              cats [litCI "travel", sp1, litCI "to"],
              cats [litCI "fly", sp1, litCI "to"],
              litCI "to", litCI "visit"],
        sp1,
        RE.grp 1 (cats [RE.cls isAsciiAlpha, RE.repCls placeCls 1 none true]),
        RE.look (alts [cats [sp1, litCI "for"], cats [sp1, litCI "with"],
                       cats [sp1, litCI "in"], cats [sp1, litCI "on"],
                       cats [sp1, litCI "by"], litCI ",", litCI ".", RE.eol])]

def findDestination (t : String) : Option String :=
  match reSearch destPat t.data none with
  | some (g, _, _) => some (pyTitle (pyClean (gstr g 1)))
  | none => none

/-- _find_departure_city (IGNORECASE):
\bfrom\s+([A-Z][\w\-\s]+?)(?=(?:\s+to|\s+for|,|\.|$)) . -/
def depPat : RE :=
  cats [RE.wb, litCI "from", sp1,
        RE.grp 1 (cats [RE.cls isAsciiAlpha, RE.repCls placeCls 1 none true]),
        RE.look (alts [cats [sp1, litCI "to"], cats [sp1, litCI "for"],
                       litCI ",", litCI ".", RE.eol])]

def findDeparture (t : String) : Option String :=
  match reSearch depPat t.data none with
  | some (g, _, _) => some (pyTitle (pyClean (gstr g 1)))
  | none => none

/-! ### Orchestrator (parse_trip_request) -/

/-- The "spec" record assembled by parse_trip_request. -/
structure TripSpec where
  destination : Option String
  departure_city : Option String
  month : Option Nat
  start_date : Option String
  end_date : Option String
  duration_days : Option Nat
  travelers : Travelers
  budget : Budget
  interests : List String
  constraints : List String
  notes : String
deriving DecidableEq, Repr

/-- The wrapper {"status": "success", "spec": ...}. -/
structure TripResult where
  status : String
  spec : TripSpec
deriving DecidableEq, Repr

/-- parse_trip_request.  Python strips the input once and runs every extractor
on it; every extractor is total except _find_budget, whose OverflowError
propagates out of the call, so the embedding binds the budget result first
and otherwise assembles the same record. -/
def parseTripRequest (yearNow : Nat) (text : String) : Except PyErr TripResult :=
  match findBudget (pyStrip text) with
  | Except.error e => Except.error e
  | Except.ok b =>
    Except.ok
      { status := "success"
        spec :=
          { destination := findDestination (pyStrip text)
            departure_city := findDeparture (pyStrip text)
            month := (findMonthOrWindow yearNow (pyStrip text)).month
            start_date := (findMonthOrWindow yearNow (pyStrip text)).start_date
            end_date := (findMonthOrWindow yearNow (pyStrip text)).end_date
            duration_days := findDurationDays (pyStrip text)
            travelers := findTravelers (pyStrip text)
            budget := b
            interests := findInterests (pyStrip text)
            constraints := findConstraints (pyStrip text)
            notes := pyStrip text } }

/-! ### Order lemmas for the interest sort -/

theorem charsLe_cons_iff (a b : Char) (as bs : List Char) :
    charsLe (a :: as) (b :: bs) = true ↔ (a < b ∨ (a = b ∧ charsLe as bs = true)) := by
  rcases lt_trichotomy a b with h | h | h
  · simp [charsLe, h]
  · subst h
    simp [charsLe]
  · have h1 : ¬a < b := lt_asymm h
    have h2 : a ≠ b := ne_of_gt h
    simp [charsLe, h, h1, h2]

theorem charsLe_total : ∀ as bs : List Char, charsLe as bs = true ∨ charsLe bs as = true
  | [], _ => Or.inl rfl
  | _ :: _, [] => Or.inr rfl
  | a :: as, b :: bs => by
    rcases lt_trichotomy a b with h | h | h
    · exact Or.inl ((charsLe_cons_iff a b as bs).mpr (Or.inl h))
    · rcases charsLe_total as bs with ih | ih
      · exact Or.inl ((charsLe_cons_iff a b as bs).mpr (Or.inr ⟨h, ih⟩))
      · exact Or.inr ((charsLe_cons_iff b a bs as).mpr (Or.inr ⟨h.symm, ih⟩))
    · exact Or.inr ((charsLe_cons_iff b a bs as).mpr (Or.inl h))

theorem charsLe_trans :
    ∀ as bs cs : List Char,
      charsLe as bs = true → charsLe bs cs = true → charsLe as cs = true
  | [], _, _, _, _ => rfl
  | _ :: _, [], _, h1, _ => by simp [charsLe] at h1
  | _ :: _, _ :: _, [], _, h2 => by simp [charsLe] at h2
  | a :: as, b :: bs, c :: cs, h1, h2 => by
    rcases (charsLe_cons_iff a b as bs).mp h1 with hab | ⟨hab, h1t⟩
    · rcases (charsLe_cons_iff b c bs cs).mp h2 with hbc | ⟨hbc, _⟩
      · exact (charsLe_cons_iff a c as cs).mpr (Or.inl (lt_trans hab hbc))
      · exact (charsLe_cons_iff a c as cs).mpr (Or.inl (by rw [← hbc]; exact hab))
    · rcases (charsLe_cons_iff b c bs cs).mp h2 with hbc | ⟨hbc, h2t⟩
      · exact (charsLe_cons_iff a c as cs).mpr (Or.inl (by rw [hab]; exact hbc))
      · exact (charsLe_cons_iff a c as cs).mpr
          (Or.inr ⟨hab.trans hbc, charsLe_trans as bs cs h1t h2t⟩)

theorem strLe_total (a b : String) : strLe a b = true ∨ strLe b a = true :=
  charsLe_total a.data b.data

theorem strLe_trans (a b c : String) :
    strLe a b = true → strLe b c = true → strLe a c = true :=
  charsLe_trans a.data b.data c.data

/-! ### Claim theorems -/

/-- C1, counterexample: when the wall-clock year is 2026, parsing
"Oct 5th to 15th, 2025" yields start_date "2026-10-05", not "2025-10-05" as
the claim states: the year written after the end day binds to the end date
only, and the missing start year resolves to the current year. -/
theorem c1_counterexample :
    findMonthOrWindow 2026 "Oct 5th to 15th, 2025" =
      { start_date := some "2026-10-05", end_date := some "2025-10-15", month := none } ∧
    ("2026-10-05" : String) ≠ "2025-10-05" := by
  constructor
  · decide
  · decide

/-- C1, amended: parsing "Oct 5th to 15th, 2025" yields end_date
"2025-10-15" and month absent, but the start year resolves to the wall-clock
current year (any year accepted by datetime), so start_date is Y-10-05 for
current year Y, matching the claim exactly when the current year is 2025. -/
theorem c1_start_year_is_wall_clock (y : Nat) (hy1 : 1 ≤ y) (hy2 : y ≤ 9999) :
    findMonthOrWindow y "Oct 5th to 15th, 2025" =
      { start_date := some (isoDate y 10 5), end_date := some "2025-10-15",
        month := none } := by
  have hiso : isoWindow "Oct 5th to 15th, 2025" = none := by decide
  have hsearch : reSearch pat1 ("Oct 5th to 15th, 2025").data none =
      some ([(6, ['2', '0', '2', '5']), (5, ['1', '5']), (2, ['5']), (1, ['O', 'c', 't'])],
            [], some '5') := by decide
  have hvalid : isValidDate y 10 5 = true := by
    unfold isValidDate
    have hd : daysInMonth y 10 = 31 := rfl
    rw [hd]
    exact decide_eq_true ⟨hy1, hy2, by norm_num, by norm_num, by norm_num, by norm_num⟩
  have hp1 : pat1Window y "Oct 5th to 15th, 2025" =
      some (isoDate y 10 5, isoDate 2025 10 15) := by
    unfold pat1Window
    rw [hsearch]
    show (if isValidDate y 10 5 && isValidDate 2025 10 15 then
            some (isoDate y 10 5, isoDate 2025 10 15)
          else none) = some (isoDate y 10 5, isoDate 2025 10 15)
    rw [hvalid, (by decide : isValidDate 2025 10 15 = true)]
    rfl
  unfold findMonthOrWindow
  rw [hiso, hp1, (by decide : isoDate 2025 10 15 = "2025-10-15")]

/-- C1, witness: at wall-clock year 2025 the window of the claim comes out. -/
theorem c1_start_year_witness :
    1 ≤ 2025 ∧ (2025 : Nat) ≤ 9999 ∧
    findMonthOrWindow 2025 "Oct 5th to 15th, 2025" =
      { start_date := some "2025-10-05", end_date := some "2025-10-15",
        month := none } := by
  refine ⟨by norm_num, by norm_num, ?_⟩
  have h := c1_start_year_is_wall_clock 2025 (by norm_num) (by norm_num)
  rw [h]
  decide

/-- C2, counterexample: "trip in October" contains the month name October and
none of the date-range patterns matches, yet the resolver returns no month at
all (the claim says month = 10): the terminal fallback only examines the
first three-to-nine-letter word, here "trip". -/
theorem c2_counterexample :
    findMonthOrWindow 2025 "trip in October" =
      { start_date := none, end_date := none, month := none } := by decide

/-- C2, amended: when none of the date-range patterns produces a window, the
resolver returns no dates and exactly the result of the bare-month fallback,
which resolves only the word captured at the first position where
\b(?:in\s+)?([A-Za-z]{3,9})\b matches, not a month name anywhere in the
text. -/
theorem c2_fallback_first_word (y : Nat) (t : String)
    (h0 : isoWindow t = none) (h1 : pat1Window y t = none)
    (h2 : pat2Window y t = none) (h3 : pat3Window y t = none) :
    findMonthOrWindow y t =
      { start_date := none, end_date := none, month := bareMonth t } := by
  unfold findMonthOrWindow
  rw [h0, h1, h2, h3]
  cases bareMonth t <;> rfl

/-- C2, witness: "in October" goes through the fallback and yields month 10. -/
theorem c2_fallback_witness :
    isoWindow "in October" = none ∧ pat1Window 2025 "in October" = none ∧
    pat2Window 2025 "in October" = none ∧ pat3Window 2025 "in October" = none ∧
    findMonthOrWindow 2025 "in October" =
      { start_date := none, end_date := none, month := some 10 } := by
  refine ⟨by decide, by decide, by decide, by decide, ?_⟩
  have h := c2_fallback_first_word 2025 "in October" (by decide) (by decide)
    (by decide) (by decide)
  rw [h]
  decide

/-- C3, counterexample: "four-day" yields no duration at all (the claim says
duration_days = 4): the word-number duration pattern allows only whitespace
between the word and the unit, so the hyphenated form does not match. -/
theorem c3_counterexample : findDurationDays "four-day" = none := by decide

/-- C3, amended: "4 days", the hyphenated digit form "4-day", and the
whitespace word form "four days" all yield duration_days = 4, but the
hyphenated word form "four-day" yields no duration: only the digit pattern
admits a hyphen before the unit. -/
theorem c3_duration_forms :
    findDurationDays "4 days" = some 4 ∧ findDurationDays "4-day" = some 4 ∧
    findDurationDays "four days" = some 4 ∧ findDurationDays "four-day" = none := by
  refine ⟨by decide, by decide, by decide, by decide⟩

/-- C4: on input "0 usd" the parser returns a TripSpec whose budget has
amount 0 together with currency USD — the currency-word rule passes the
normalized amount through without the zero guard that the sign rule and the
budget-keyword rule apply, contradicting the claimed invariant that a present
amount is strictly positive. -/
theorem c4_zero_amount_bug :
    (parseTripRequest 2025 "0 usd").toOption.map (fun r => r.spec.budget) =
      some { amount := some 0, currency := some "USD", tag := none } := by decide

/-- C5: parse_trip_request is not total: a dollar sign followed by 309 nines
makes _normalize_budget_number compute int(float("9"*309)); the float
overflows to infinity and int(inf) raises OverflowError, which nothing
catches (only ValueError is handled), so the call raises instead of
returning a status-success record. -/
theorem c5_overflow_crash :
    parseTripRequest 2025 ("$" ++ String.mk (List.replicate 309 '9')) =
      Except.error PyErr.overflowError := by
  have h : findBudget (pyStrip ("$" ++ String.mk (List.replicate 309 '9'))) =
      Except.error PyErr.overflowError := by decide
  unfold parseTripRequest
  rw [h]

/-- C6: "$3k" and "3,000 usd" both normalize to budget amount 3000 with
currency USD: the trailing k multiplies by 1000 and thousands separators are
stripped before parsing. -/
theorem c6_budget_normalization :
    findBudget "$3k" =
      Except.ok { amount := some 3000, currency := some "USD", tag := none } ∧
    findBudget "3,000 usd" =
      Except.ok { amount := some 3000, currency := some "USD", tag := none } := by
  refine ⟨by decide, by decide⟩

/-- C7: whenever the "family of N" rule fires (it is the first rule of
_find_travelers), the result is adults = max(2, N−2) and
children = N − adults for N ≥ 3, and adults = N, children = 0 for N < 3. -/
theorem c7_family_of (t : String) (g : GroupMap) (rest : List Char) (p : Option Char)
    (h : reSearch familyPat t.data none = some (g, rest, p)) :
    findTravelers t =
      { adults := some (if 3 ≤ digitsToInt (gstr g 1).data then
                          max 2 (digitsToInt (gstr g 1).data - 2)
                        else digitsToInt (gstr g 1).data),
        children := if 3 ≤ digitsToInt (gstr g 1).data then
                      digitsToInt (gstr g 1).data - max 2 (digitsToInt (gstr g 1).data - 2)
                    else 0 } := by
  unfold findTravelers
  rw [h]
  show ({ adults := some (if 3 ≤ digitsToInt (gstr g 1).data then
                            max 2 (digitsToInt (gstr g 1).data - 2)
                          else digitsToInt (gstr g 1).data),
          children := max 0 (digitsToInt (gstr g 1).data -
                        (if 3 ≤ digitsToInt (gstr g 1).data then
                           max 2 (digitsToInt (gstr g 1).data - 2)
                         else digitsToInt (gstr g 1).data)) } : Travelers) = _
  congr 1
  split_ifs with h3
  · simp only [max_def]
    split_ifs <;> omega
  · simp only [max_def]
    split_ifs <;> omega

/-- C7, witness: "family of 5" yields adults 3 and children 2, and
"family of 2" yields adults 2 and children 0. -/
theorem c7_family_witness :
    reSearch familyPat ("family of 5").data none = some ([(1, ['5'])], [], some '5') ∧
    findTravelers "family of 5" = { adults := some 3, children := 2 } ∧
    reSearch familyPat ("family of 2").data none = some ([(1, ['2'])], [], some '2') ∧
    findTravelers "family of 2" = { adults := some 2, children := 0 } := by
  refine ⟨by decide, ?_, by decide, ?_⟩
  · have h := c7_family_of "family of 5" [(1, ['5'])] [] (some '5') (by decide)
    rw [h]
    decide
  · have h := c7_family_of "family of 2" [(1, ['2'])] [] (some '2') (by decide)
    rw [h]
    decide

/-- C8: "5-15 October 2025" (day-range-before-month) and
"between Oct 5 and 15, 2025" (between-pattern) resolve to the identical
window 2025-10-05 .. 2025-10-15, independent of the wall-clock year. -/
theorem c8_same_window (y : Nat) :
    findMonthOrWindow y "5-15 October 2025" =
      { start_date := some "2025-10-05", end_date := some "2025-10-15", month := none } ∧
    findMonthOrWindow y "between Oct 5 and 15, 2025" =
      { start_date := some "2025-10-05", end_date := some "2025-10-15", month := none } := by
  have hiA : isoWindow "5-15 October 2025" = none := by decide
  have h1A : pat1Window y "5-15 October 2025" = none := by
    unfold pat1Window
    rw [(by decide : reSearch pat1 ("5-15 October 2025").data none = none)]
  have h2A : pat2Window y "5-15 October 2025" = some ("2025-10-05", "2025-10-15") := by
    unfold pat2Window
    rw [(by decide : reSearch pat2 ("5-15 October 2025").data none =
        some ([(4, ['2', '0', '2', '5']), (3, ['O', 'c', 't', 'o', 'b', 'e', 'r']),
               (2, ['1', '5']), (1, ['5'])], [], some '5'))]
    show (match monNum "October" with
      | some mm =>
        let sdi := stripOrd "5"
        let edi := stripOrd "15"
        let yy := digitsToNat ("2025").data
        if (isValidDate yy mm sdi && isValidDate yy mm edi) = true then
          some (isoDate yy mm sdi, isoDate yy mm edi)
        else none
      | none => none) = some ("2025-10-05", "2025-10-15")
    rfl
  have hiB : isoWindow "between Oct 5 and 15, 2025" = none := by decide
  have h1B : pat1Window y "between Oct 5 and 15, 2025" = none := by
    unfold pat1Window
    rw [(by decide : reSearch pat1 ("between Oct 5 and 15, 2025").data none = none)]
  have h2B : pat2Window y "between Oct 5 and 15, 2025" = none := by
    unfold pat2Window
    rw [(by decide : reSearch pat2 ("between Oct 5 and 15, 2025").data none = none)]
  have h3B : pat3Window y "between Oct 5 and 15, 2025" =
      some ("2025-10-05", "2025-10-15") := by
    unfold pat3Window
    rw [(by decide : reSearch pat3 ("between Oct 5 and 15, 2025").data none =
        some ([(4, ['2', '0', '2', '5']), (3, ['1', '5']), (2, ['5']),
               (1, ['O', 'c', 't'])], [], some '5'))]
    show (match monNum "Oct" with
      | some mm =>
        let sdi := stripOrd "5"
        let edi := stripOrd "15"
        let yy := digitsToNat ("2025").data
        if (isValidDate yy mm sdi && isValidDate yy mm edi) = true then
          some (isoDate yy mm sdi, isoDate yy mm edi)
        else none
      | none => none) = some ("2025-10-05", "2025-10-15")
    rfl
  constructor
  · unfold findMonthOrWindow
    rw [hiA, h1A, h2A]
  · unfold findMonthOrWindow
    rw [hiB, h1B, h2B, h3B]

/-- C8, witness: the two phrasings at a concrete wall-clock year. -/
theorem c8_same_window_witness :
    findMonthOrWindow 2026 "5-15 October 2025" =
      { start_date := some "2025-10-05", end_date := some "2025-10-15", month := none } ∧
    findMonthOrWindow 2026 "between Oct 5 and 15, 2025" =
      { start_date := some "2025-10-05", end_date := some "2025-10-15", month := none } :=
  c8_same_window 2026

/-- C9: the date window resolver always sets start_date and end_date together
(both present or both absent), and whenever it sets month it sets no dates,
so at most one of the two signals is ever present. -/
theorem c9_window_invariant (y : Nat) (t : String) :
    ((findMonthOrWindow y t).start_date.isSome = (findMonthOrWindow y t).end_date.isSome) ∧
    ((findMonthOrWindow y t).month = none ∨
      ((findMonthOrWindow y t).start_date = none ∧
       (findMonthOrWindow y t).end_date = none)) := by
  unfold findMonthOrWindow
  cases hiso : isoWindow t with
  | some v => simp
  | none =>
    cases h1 : pat1Window y t with
    | some v => simp
    | none =>
      cases h2 : pat2Window y t with
      | some v => simp
      | none =>
        cases h3 : pat3Window y t with
        | some v => simp
        | none =>
          cases hb : bareMonth t with
          | some m => simp
          | none => simp

/-- C9, witness: the invariant at two concrete inputs, one of each shape. -/
theorem c9_window_invariant_witness :
    (((findMonthOrWindow 2025 "in October").start_date.isSome =
        (findMonthOrWindow 2025 "in October").end_date.isSome) ∧
     ((findMonthOrWindow 2025 "in October").month = none ∨
       ((findMonthOrWindow 2025 "in October").start_date = none ∧
        (findMonthOrWindow 2025 "in October").end_date = none))) :=
  c9_window_invariant 2025 "in October"

/-- C10: for every input, the interest list is sorted in ascending string
order, duplicate-free, and drawn from the fixed vocabulary of nine canonical
tags. -/
theorem c10_interests_invariant (t : String) :
    List.Sorted (fun a b : String => strLe a b = true) (findInterests t) ∧
    (findInterests t).Nodup ∧
    ∀ x ∈ findInterests t,
      x ∈ ["art", "food", "history", "nature", "adventure", "nightlife",
           "shopping", "family", "romance"] := by
  have hperm : List.Perm (findInterests t)
      ((INTEREST_KEYWORDS.filter (interestHit t)).map Prod.fst) :=
    List.perm_insertionSort _ _
  have hsub : List.Sublist ((INTEREST_KEYWORDS.filter (interestHit t)).map Prod.fst)
      (INTEREST_KEYWORDS.map Prod.fst) :=
    (List.filter_sublist _).map _
  refine ⟨?_, ?_, ?_⟩
  · haveI : IsTrans String (fun a b : String => strLe a b = true) :=
      ⟨fun a b c => strLe_trans a b c⟩
    haveI : IsTotal String (fun a b : String => strLe a b = true) :=
      ⟨fun a b => strLe_total a b⟩
    exact List.sorted_insertionSort _ _
  · exact hperm.symm.nodup (hsub.nodup (by decide))
  · intro x hx
    have hx2 := hsub.subset (hperm.subset hx)
    rw [(by decide : INTEREST_KEYWORDS.map Prod.fst =
          ["art", "food", "history", "nature", "adventure", "nightlife",
           "shopping", "family", "romance"])] at hx2
    exact hx2

/-- C10, witness: a concrete input with several triggers. -/
theorem c10_interests_witness :
    List.Sorted (fun a b : String => strLe a b = true)
      (findInterests "we love food and history, museums and hiking") ∧
    (findInterests "we love food and history, museums and hiking").Nodup ∧
    ∀ x ∈ findInterests "we love food and history, museums and hiking",
      x ∈ ["art", "food", "history", "nature", "adventure", "nightlife",
           "shopping", "family", "romance"] :=
  c10_interests_invariant "we love food and history, museums and hiking"

end VoyAIge




